import Mathlib

/-!
Verification of the FastAPI CRUD service (items and clock-in records).

The Python sources (`main.py`, `models.py`, `database.py`) are embedded
shallowly:

* MongoDB `ObjectId` values are 12-byte identifiers, i.e. naturals below
  `16 ^ 24`; their transport form is the 24-character lowercase hex string
  (`bson.ObjectId.__str__`), and `bson.ObjectId.is_valid` on a string checks
  "length 24 and every character a hex digit".
* A collection is the list of its documents in natural (insertion) order;
  `insert_one` appends, `find_one`/`delete_one`/`update_one` act on the first
  document matching the `_id` query, and `update_one`'s `modified_count`
  counts documents actually changed by the `$set`.
* Each route handler of `main.py` becomes a function from its arguments and
  the collection state to a result record carrying the response
  (`Except Err`), the new collection state, and the list of datastore calls
  it issued.  `datetime.utcnow()` becomes an explicit `now` argument; the
  `ObjectId` generated for an insert becomes an explicit argument as well.
* Starlette route matching (first registered full match wins) is embedded as
  a `matchRoute` function over the route table in the registration order of
  `main.py`.

Timestamps and dates are modelled as `Int` (ordinals); pydantic's `EmailStr`
syntax check is not modelled because no claim below constrains email syntax —
strings stand for already-transported field values.
-/

/-- A MongoDB ObjectId: 12 bytes, i.e. a natural number below `16 ^ 24`. -/
abbrev ObjectId := Fin (16 ^ 24)

/-- Hex-digit test as performed by `bson.ObjectId.is_valid` on each character
of a candidate identifier string (both cases accepted). -/
def isHexDigit (c : Char) : Bool :=
  (decide ('0' ≤ c) && decide (c ≤ '9')) ||
  (decide ('a' ≤ c) && decide (c ≤ 'f')) ||
  (decide ('A' ≤ c) && decide (c ≤ 'F'))

/-- Numeric value of a hex digit (garbage value 0 on non-digits). -/
def hexVal (c : Char) : Nat :=
  if decide ('0' ≤ c) && decide (c ≤ '9') then c.toNat - '0'.toNat
  else if decide ('a' ≤ c) && decide (c ≤ 'f') then c.toNat - 'a'.toNat + 10
  else if decide ('A' ≤ c) && decide (c ≤ 'F') then c.toNat - 'A'.toNat + 10
  else 0

/-- The `k` low hex digits of `n`, most significant first (lowercase, as
produced by `binascii.hexlify` inside `bson.ObjectId.__str__`). -/
def encodeHexAux : Nat → Nat → List Char
  | 0, _ => []
  | k + 1, n => encodeHexAux k (n / 16) ++ [Nat.digitChar (n % 16)]

/-- `str(ObjectId)`: the 24-character lowercase hex rendering. -/
def objectIdToString (o : ObjectId) : String :=
  ⟨encodeHexAux 24 o.val⟩

/-- Big-endian hex decoding of a character list. -/
def decodeHexList (l : List Char) : Nat :=
  l.foldl (fun a c => 16 * a + hexVal c) 0

/-- `bson.ObjectId.is_valid` on a string: length 24 and all hex digits. -/
def isValidObjectId (s : String) : Bool :=
  s.data.length == 24 && s.data.all isHexDigit

/-- `ObjectId(s)` for a string that passed `is_valid`: decode the 24 hex
digits back into the 12-byte value. -/
def parseObjectId (s : String) : ObjectId :=
  ⟨decodeHexList s.data % 16 ^ 24, Nat.mod_lt _ (by norm_num)⟩

/-! ### Generic single-document collection operations

MongoDB's `find_one`, `delete_one` and `update_one` with an `_id` equality
query act on the first matching document in natural order.  They are embedded
as list operations, generic in the document type. -/

/-- Remove the first element satisfying `p` (MongoDB `delete_one`). -/
def removeFirst {α : Type} (p : α → Bool) : List α → List α
  | [] => []
  | a :: l => if p a then l else a :: removeFirst p l

/-- Replace the first element satisfying `p` by its image under `f`
(MongoDB `update_one` with a `$set`). -/
def updateFirst {α : Type} (p : α → Bool) (f : α → α) : List α → List α
  | [] => []
  | a :: l => if p a then f a :: l else a :: updateFirst p f l

/-- `delete_one`: the `deleted_count` together with the remaining documents. -/
def deleteOneCount {α : Type} (p : α → Bool) (l : List α) : Nat × List α :=
  match l.find? p with
  | some _ => (1, removeFirst p l)
  | none => (0, l)

/-! ### Error taxonomy, datastore call trace, handler results -/

/-- The error taxonomy raised by the handlers of `main.py`:
`invalidFormat` ↦ HTTP 400 "Invalid ID format", `notFound` ↦ 404,
`internalError` ↦ 500. -/
inductive Err where
  | invalidFormat
  | notFound
  | internalError
deriving DecidableEq

/-- The kinds of datastore calls a handler can issue. -/
inductive DbCall where
  | insertOne
  | findOne
  | findMany
  | updateOne
  | deleteOne
deriving DecidableEq

/-- Result of running a handler: response, resulting collection state, and
the datastore calls issued, in order. -/
structure HRes (α : Type) (σ : Type) where
  resp : Except Err α
  store : σ
  calls : List DbCall

/-! ### Item data model (`models.py`) -/

/-- A stored item document: `_id` plus the fields of `ItemBase` plus the
server-stamped `insert_date`. -/
structure ItemDoc where
  oid : ObjectId
  name : String
  email : String
  item_name : String
  quantity : Int
  expiry_date : Int
  insert_date : Int
deriving DecidableEq

/-- `ItemCreate` (= `ItemBase`): the validated create payload. -/
structure ItemCreate where
  name : String
  email : String
  item_name : String
  quantity : Int
  expiry_date : Int
deriving DecidableEq

/-- `ItemUpdate`: all fields optional; note there is no `insert_date` field
declared, matching `models.py`. -/
structure ItemUpdate where
  name : Option String
  email : Option String
  item_name : Option String
  quantity : Option Int
  expiry_date : Option Int
deriving DecidableEq

/-- The raw JSON body of an item update request, before pydantic parsing:
the optional declared fields plus a possible client-supplied `insert_date`
key, which `ItemUpdate` does not declare. -/
structure RawItemUpdate where
  name : Option String
  email : Option String
  item_name : Option String
  quantity : Option Int
  expiry_date : Option Int
  insert_date : Option Int
deriving DecidableEq

/-- The raw JSON body of an item create request, before validation. -/
structure RawItemCreate where
  name : String
  email : String
  item_name : String
  quantity : Int
  expiry_date : Int
deriving DecidableEq

/-- The `Item` response entity: the stored document with the `_id` rendered
as a string by `Item.convert_objectid_to_str`. -/
structure Item where
  id : String
  name : String
  email : String
  item_name : String
  quantity : Int
  expiry_date : Int
  insert_date : Int
deriving DecidableEq

/-- `Item(**document)`: the record mapper from a stored document to the
response entity (identifier stringification, field pass-through). -/
def itemOfDoc (d : ItemDoc) : Item :=
  { id := objectIdToString d.oid, name := d.name, email := d.email,
    item_name := d.item_name, quantity := d.quantity,
    expiry_date := d.expiry_date, insert_date := d.insert_date }

/-- Pydantic parsing of the raw update body into `ItemUpdate`: undeclared
keys (`insert_date`) are ignored (pydantic default `Extra.ignore`). -/
def parseItemUpdate (r : RawItemUpdate) : ItemUpdate :=
  { name := r.name, email := r.email, item_name := r.item_name,
    quantity := r.quantity, expiry_date := r.expiry_date }

/-- Pydantic validation of `ItemCreate`: `quantity` carries `ge=0`, so a
negative quantity raises `ValidationError` and no object is constructed. -/
def validateItemCreate (r : RawItemCreate) : Option ItemCreate :=
  if r.quantity < 0 then none
  else some { name := r.name, email := r.email, item_name := r.item_name,
              quantity := r.quantity, expiry_date := r.expiry_date }

/-- Pydantic validation of `ItemUpdate`: the optional `quantity` carries
`ge=0`, so a supplied negative quantity raises `ValidationError`. -/
def validateItemUpdate (r : RawItemUpdate) : Option ItemUpdate :=
  match r.quantity with
  | some q => if q < 0 then none else some (parseItemUpdate r)
  | none => some (parseItemUpdate r)

/-- `{k: v for k, v in item.dict().items() if v is not None}` is the empty
dict exactly when every declared field is `None`. -/
def ItemUpdate.isEmpty (u : ItemUpdate) : Bool :=
  u.name.isNone && u.email.isNone && u.item_name.isNone &&
  u.quantity.isNone && u.expiry_date.isNone

/-- Effect of `{"$set": item_data}` on one document: each field present in
the change-set overwrites the stored value; `_id` and `insert_date` cannot
appear in `item_data` (`ItemUpdate` declares neither `_id` nor
`insert_date`, and the handler deletes `insert_date` if it were present). -/
def applyItemSet (u : ItemUpdate) (d : ItemDoc) : ItemDoc :=
  { d with name := u.name.getD d.name, email := u.email.getD d.email,
           item_name := u.item_name.getD d.item_name,
           quantity := u.quantity.getD d.quantity,
           expiry_date := u.expiry_date.getD d.expiry_date }

/-- The items collection, in natural (insertion) order. -/
structure ItemsCollection where
  docs : List ItemDoc
deriving DecidableEq

/-- `items_collection.find_one({"_id": oid})`. -/
def itemFindOne (s : ItemsCollection) (oid : ObjectId) : Option ItemDoc :=
  s.docs.find? (fun d => decide (d.oid = oid))

/-- `items_collection.update_one({"_id": oid}, {"$set": item_data})`:
returns `modified_count` and the new document list. -/
def itemUpdateOne (oid : ObjectId) (u : ItemUpdate) (docs : List ItemDoc) :
    Nat × List ItemDoc :=
  match docs.find? (fun d => decide (d.oid = oid)) with
  | some d => (if applyItemSet u d = d then 0 else 1,
               updateFirst (fun d => decide (d.oid = oid)) (applyItemSet u) docs)
  | none => (0, docs)

/-! ### Item handlers (`main.py`) -/

/-- The document inserted by `create_item`: the payload fields plus the
server-stamped `insert_date` and the driver-assigned `_id`. -/
def mkItemDoc (p : ItemCreate) (now : Int) (oid : ObjectId) : ItemDoc :=
  { oid := oid, name := p.name, email := p.email, item_name := p.item_name,
    quantity := p.quantity, expiry_date := p.expiry_date, insert_date := now }

/-- `POST /items` (`create_item`): stamp `insert_date := now`, insert one
document (the driver assigns `newOid`), re-read it by the assigned id,
return the entity, or 500 if the re-read finds nothing. -/
def create_item (p : ItemCreate) (now : Int) (newOid : ObjectId)
    (s : ItemsCollection) : HRes Item ItemsCollection :=
  let doc : ItemDoc := mkItemDoc p now newOid
  let s2 : ItemsCollection := ⟨s.docs ++ [doc]⟩
  match itemFindOne s2 newOid with
  | some d => ⟨.ok (itemOfDoc d), s2, [.insertOne, .findOne]⟩
  | none => ⟨.error .internalError, s2, [.insertOne, .findOne]⟩

/-- `GET /items/{id}` (`get_item`): 400 before any datastore access on an
invalid id, else find by id, 404 when absent. -/
def get_item (id : String) (s : ItemsCollection) : HRes Item ItemsCollection :=
  if isValidObjectId id = false then ⟨.error .invalidFormat, s, []⟩
  else
    match itemFindOne s (parseObjectId id) with
    | some d => ⟨.ok (itemOfDoc d), s, [.findOne]⟩
    | none => ⟨.error .notFound, s, [.findOne]⟩

/-- Query parameters of `GET /items/filter`. -/
structure ItemFilterParams where
  email : Option String
  expiry_date : Option Int
  insert_date : Option Int
  quantity : Option Int
deriving DecidableEq

/-- The query document built by `filter_items`.  The handler guards the
string parameter with Python truthiness (`if email:`), so a supplied empty
string imposes no constraint; `quantity` is guarded with `is not None`. -/
def matchesItemQuery (q : ItemFilterParams) (d : ItemDoc) : Bool :=
  (match q.email with
   | some e => if e = "" then true else decide (d.email = e)
   | none => true) &&
  (match q.expiry_date with
   | some t => decide (t < d.expiry_date)
   | none => true) &&
  (match q.insert_date with
   | some t => decide (t < d.insert_date)
   | none => true) &&
  (match q.quantity with
   | some n => decide (n ≤ d.quantity)
   | none => true)

/-- `filter_items`: the handler function itself — all documents matching the
conjunction of the supplied predicates, in natural order. -/
def filter_items (q : ItemFilterParams) (s : ItemsCollection) : List Item :=
  (s.docs.filter (matchesItemQuery q)).map itemOfDoc

/-- `DELETE /items/{id}` (`delete_item`): 400 on invalid id before any
datastore access; 204 when `deleted_count == 1`, else 404. -/
def delete_item (id : String) (s : ItemsCollection) : HRes Unit ItemsCollection :=
  if isValidObjectId id = false then ⟨.error .invalidFormat, s, []⟩
  else
    let r := deleteOneCount (fun d => decide (d.oid = parseObjectId id)) s.docs
    if r.1 = 1 then ⟨.ok (), ⟨r.2⟩, [.deleteOne]⟩
    else ⟨.error .notFound, ⟨r.2⟩, [.deleteOne]⟩

/-- The trailing `existing_item = find_one(...)`; `return`/`404` path shared
by every fall-through of `update_item`. -/
def itemExistingRead (s : ItemsCollection) (oid : ObjectId) (pre : List DbCall) :
    HRes Item ItemsCollection :=
  match itemFindOne s oid with
  | some d => ⟨.ok (itemOfDoc d), s, pre ++ [.findOne]⟩
  | none => ⟨.error .notFound, s, pre ++ [.findOne]⟩

/-- `PUT /items/{id}` (`update_item`): 400 on invalid id before any datastore
access; if the non-`None` change-set is non-empty, `update_one` with `$set`,
and when `modified_count == 1` re-read and return; every other path falls
through to the `existing_item` re-read, returning the record if it exists
and 404 otherwise. -/
def update_item (id : String) (u : ItemUpdate) (s : ItemsCollection) :
    HRes Item ItemsCollection :=
  if isValidObjectId id = false then ⟨.error .invalidFormat, s, []⟩
  else
    let oid := parseObjectId id
    if u.isEmpty = false then
      let r := itemUpdateOne oid u s.docs
      let s2 : ItemsCollection := ⟨r.2⟩
      if r.1 = 1 then
        match itemFindOne s2 oid with
        | some d => ⟨.ok (itemOfDoc d), s2, [.updateOne, .findOne]⟩
        | none => itemExistingRead s2 oid [.updateOne, .findOne]
      else itemExistingRead s2 oid [.updateOne]
    else itemExistingRead s oid []

/-! ### Clock-in data model and handlers (`models.py`, `main.py`) -/

/-- A stored clock-in document: `_id`, `email`, `location`, and the
server-stamped `insert_datetime`. -/
structure ClockInDoc where
  oid : ObjectId
  email : String
  location : String
  insert_datetime : Int
deriving DecidableEq

/-- `ClockInCreate` (= `ClockInBase`). -/
structure ClockInCreate where
  email : String
  location : String
deriving DecidableEq

/-- `ClockInUpdate`: both fields optional; no `insert_datetime` field is
declared, matching `models.py`. -/
structure ClockInUpdate where
  email : Option String
  location : Option String
deriving DecidableEq

/-- The raw JSON body of a clock-in update request: the declared optional
fields plus a possible client-supplied `insert_datetime` key. -/
structure RawClockInUpdate where
  email : Option String
  location : Option String
  insert_datetime : Option Int
deriving DecidableEq

/-- The `ClockInRecord` response entity. -/
structure ClockInRecord where
  id : String
  email : String
  location : String
  insert_datetime : Int
deriving DecidableEq

/-- `ClockInRecord(**document)`: identifier stringification plus field
pass-through. -/
def clockOfDoc (d : ClockInDoc) : ClockInRecord :=
  { id := objectIdToString d.oid, email := d.email, location := d.location,
    insert_datetime := d.insert_datetime }

/-- Pydantic parsing of the raw clock-in update body: the undeclared
`insert_datetime` key is ignored. -/
def parseClockInUpdate (r : RawClockInUpdate) : ClockInUpdate :=
  { email := r.email, location := r.location }

/-- Non-`None` change-set emptiness for `ClockInUpdate`. -/
def ClockInUpdate.isEmpty (u : ClockInUpdate) : Bool :=
  u.email.isNone && u.location.isNone

/-- Effect of `{"$set": record_data}` on one clock-in document. -/
def applyClockInSet (u : ClockInUpdate) (d : ClockInDoc) : ClockInDoc :=
  { d with email := u.email.getD d.email, location := u.location.getD d.location }

/-- The clock-in collection, in natural (insertion) order. -/
structure ClockInCollection where
  docs : List ClockInDoc
deriving DecidableEq

/-- `clockin_collection.find_one({"_id": oid})`. -/
def clockFindOne (s : ClockInCollection) (oid : ObjectId) : Option ClockInDoc :=
  s.docs.find? (fun d => decide (d.oid = oid))

/-- `clockin_collection.update_one({"_id": oid}, {"$set": record_data})`. -/
def clockUpdateOne (oid : ObjectId) (u : ClockInUpdate) (docs : List ClockInDoc) :
    Nat × List ClockInDoc :=
  match docs.find? (fun d => decide (d.oid = oid)) with
  | some d => (if applyClockInSet u d = d then 0 else 1,
               updateFirst (fun d => decide (d.oid = oid)) (applyClockInSet u) docs)
  | none => (0, docs)

/-- The document inserted by `create_clockin`. -/
def mkClockDoc (p : ClockInCreate) (now : Int) (oid : ObjectId) : ClockInDoc :=
  { oid := oid, email := p.email, location := p.location,
    insert_datetime := now }

/-- `POST /clock-in` (`create_clockin`). -/
def create_clockin (p : ClockInCreate) (now : Int) (newOid : ObjectId)
    (s : ClockInCollection) : HRes ClockInRecord ClockInCollection :=
  let doc : ClockInDoc := mkClockDoc p now newOid
  let s2 : ClockInCollection := ⟨s.docs ++ [doc]⟩
  match clockFindOne s2 newOid with
  | some d => ⟨.ok (clockOfDoc d), s2, [.insertOne, .findOne]⟩
  | none => ⟨.error .internalError, s2, [.insertOne, .findOne]⟩

/-- `GET /clock-in/{id}` (`get_clockin`). -/
def get_clockin (id : String) (s : ClockInCollection) :
    HRes ClockInRecord ClockInCollection :=
  if isValidObjectId id = false then ⟨.error .invalidFormat, s, []⟩
  else
    match clockFindOne s (parseObjectId id) with
    | some d => ⟨.ok (clockOfDoc d), s, [.findOne]⟩
    | none => ⟨.error .notFound, s, [.findOne]⟩

/-- Query parameters of `GET /clock-in/filter`. -/
structure ClockFilterParams where
  email : Option String
  location : Option String
  insert_datetime : Option Int
deriving DecidableEq

/-- The query document built by `filter_clockins`; `email` and `location`
are guarded by Python truthiness, so a supplied empty string imposes no
constraint. -/
def matchesClockQuery (q : ClockFilterParams) (d : ClockInDoc) : Bool :=
  (match q.email with
   | some e => if e = "" then true else decide (d.email = e)
   | none => true) &&
  (match q.location with
   | some loc => if loc = "" then true else decide (d.location = loc)
   | none => true) &&
  (match q.insert_datetime with
   | some t => decide (t < d.insert_datetime)
   | none => true)

/-- `filter_clockins`: the handler function itself. -/
def filter_clockins (q : ClockFilterParams) (s : ClockInCollection) :
    List ClockInRecord :=
  (s.docs.filter (matchesClockQuery q)).map clockOfDoc

/-- `DELETE /clock-in/{id}` (`delete_clockin`). -/
def delete_clockin (id : String) (s : ClockInCollection) :
    HRes Unit ClockInCollection :=
  if isValidObjectId id = false then ⟨.error .invalidFormat, s, []⟩
  else
    let r := deleteOneCount (fun d => decide (d.oid = parseObjectId id)) s.docs
    if r.1 = 1 then ⟨.ok (), ⟨r.2⟩, [.deleteOne]⟩
    else ⟨.error .notFound, ⟨r.2⟩, [.deleteOne]⟩

/-- The trailing `existing_record = find_one(...)` fall-through of
`update_clockin`. -/
def clockExistingRead (s : ClockInCollection) (oid : ObjectId)
    (pre : List DbCall) : HRes ClockInRecord ClockInCollection :=
  match clockFindOne s oid with
  | some d => ⟨.ok (clockOfDoc d), s, pre ++ [.findOne]⟩
  | none => ⟨.error .notFound, s, pre ++ [.findOne]⟩

/-- `PUT /clock-in/{id}` (`update_clockin`), mirroring `update_item`. -/
def update_clockin (id : String) (u : ClockInUpdate) (s : ClockInCollection) :
    HRes ClockInRecord ClockInCollection :=
  if isValidObjectId id = false then ⟨.error .invalidFormat, s, []⟩
  else
    let oid := parseObjectId id
    if u.isEmpty = false then
      let r := clockUpdateOne oid u s.docs
      let s2 : ClockInCollection := ⟨r.2⟩
      if r.1 = 1 then
        match clockFindOne s2 oid with
        | some d => ⟨.ok (clockOfDoc d), s2, [.updateOne, .findOne]⟩
        | none => clockExistingRead s2 oid [.updateOne, .findOne]
      else clockExistingRead s2 oid [.updateOne]
    else clockExistingRead s oid []

/-! ### Route matching (Starlette: first registered full match wins)

`main.py` registers its routes in source order.  Crucially,
`GET /items/{id}` is registered before `GET /items/filter`, and
`GET /clock-in/{id}` before `GET /clock-in/filter`; a path template
parameter matches any single segment, so the literal routes registered
later are shadowed.  There is no `/items/aggregate` route at all. -/

/-- HTTP methods used by the application. -/
inductive Method where
  | get
  | post
  | put
  | del
deriving DecidableEq

/-- One segment of a route path template: a literal or a `{param}`. -/
inductive Seg where
  | lit (s : String)
  | param
deriving DecidableEq

/-- Identifiers of the eleven handlers, in the registration order used in
`routeTable`. -/
inductive RouteId where
  | createItemR
  | getItemR
  | filterItemsR
  | deleteItemR
  | updateItemR
  | createClockinR
  | getClockinR
  | filterClockinsR
  | deleteClockinR
  | updateClockinR
  | rootR
deriving DecidableEq

/-- The route table of `main.py`, in registration (source) order. -/
def routeTable : List (Method × List Seg × RouteId) :=
  [ (.post, [.lit "items"], .createItemR),
    (.get, [.lit "items", .param], .getItemR),
    (.get, [.lit "items", .lit "filter"], .filterItemsR),
    (.del, [.lit "items", .param], .deleteItemR),
    (.put, [.lit "items", .param], .updateItemR),
    (.post, [.lit "clock-in"], .createClockinR),
    (.get, [.lit "clock-in", .param], .getClockinR),
    (.get, [.lit "clock-in", .lit "filter"], .filterClockinsR),
    (.del, [.lit "clock-in", .param], .deleteClockinR),
    (.put, [.lit "clock-in", .param], .updateClockinR),
    (.get, [], .rootR) ]

/-- Does one template segment match one concrete path segment? -/
def segMatches : Seg → String → Bool
  | .lit l, s => decide (l = s)
  | .param, _ => true

/-- Full-path template match. -/
def segsMatch : List Seg → List String → Bool
  | [], [] => true
  | sg :: sgs, s :: ss => segMatches sg s && segsMatch sgs ss
  | _, _ => false

/-- Starlette routing: the first registered route whose method and full path
match wins. -/
def matchRoute (m : Method) (path : List String) : Option RouteId :=
  (routeTable.find? (fun r => decide (r.1 = m) && segsMatch r.2.1 path)).map
    (fun r => r.2.2)

/-- Response of a `GET /items/<seg>` request after routing and handler
execution. -/
inductive ItemsGetResponse where
  | entity (i : Item)
  | listing (l : List Item)
  | err (e : Err)
  | noRoute
deriving DecidableEq

/-- Dispatch of `GET /items/<sub>`: route the path, then run the matched
handler (`get_item` receives `sub` as its `id` path parameter;
`filter_items` receives the query parameters). -/
def dispatchItemsGet (sub : String) (qp : ItemFilterParams)
    (s : ItemsCollection) : ItemsGetResponse :=
  match matchRoute .get ["items", sub] with
  | some .getItemR =>
      match (get_item sub s).resp with
      | .ok i => .entity i
      | .error e => .err e
  | some .filterItemsR => .listing (filter_items qp s)
  | _ => .noRoute

/-- Response of a `GET /clock-in/<seg>` request after routing and handler
execution. -/
inductive ClockGetResponse where
  | entity (r : ClockInRecord)
  | listing (l : List ClockInRecord)
  | err (e : Err)
  | noRoute
deriving DecidableEq

/-- Dispatch of `GET /clock-in/<sub>`. -/
def dispatchClockGet (sub : String) (qp : ClockFilterParams)
    (s : ClockInCollection) : ClockGetResponse :=
  match matchRoute .get ["clock-in", sub] with
  | some .getClockinR =>
      match (get_clockin sub s).resp with
      | .ok r => .entity r
      | .error e => .err e
  | some .filterClockinsR => .listing (filter_clockins qp s)
  | _ => .noRoute

/-! ### Reachable states of the items collection

The items collection starts empty and evolves only through the create,
update and delete handlers, each behind its pydantic validation. -/

/-- One inbound mutating request against the items collection.  `now` and
`oid` are the environment's choices of server time and driver-assigned
identifier for a create. -/
inductive ItemOp where
  | create (raw : RawItemCreate) (now : Int) (oid : ObjectId)
  | update (id : String) (raw : RawItemUpdate)
  | delete (id : String)

/-- State transition of one request: a payload rejected by validation
(`ValidationError`, HTTP 400) never reaches a handler and leaves the
collection unchanged. -/
def itemExec (s : ItemsCollection) : ItemOp → ItemsCollection
  | .create raw now oid =>
      match validateItemCreate raw with
      | some p => (create_item p now oid s).store
      | none => s
  | .update id raw =>
      match validateItemUpdate raw with
      | some u => (update_item id u s).store
      | none => s
  | .delete id => (delete_item id s).store

/-- The items collection reached by a request sequence from the empty
collection. -/
def itemsReachable (ops : List ItemOp) : ItemsCollection :=
  ops.foldl itemExec ⟨[]⟩

/-! ### Concrete fixtures used by witnesses and counterexamples -/

/-- The zero ObjectId (string form `"000000000000000000000000"`). -/
def oid0 : ObjectId := ⟨0, by norm_num⟩

/-- A second distinct ObjectId. -/
def oid1 : ObjectId := ⟨1, by norm_num⟩

/-- A third distinct ObjectId. -/
def oid2 : ObjectId := ⟨2, by norm_num⟩

/-- The string form of `oid0`. -/
def id0 : String := "000000000000000000000000"

/-- A sample stored item (the spec's running example). -/
def sampleItemDoc : ItemDoc :=
  { oid := oid0, name := "Sample", email := "a@b.com", item_name := "Widget",
    quantity := 10, expiry_date := 20241231, insert_date := 100 }

/-- An items collection holding exactly `sampleItemDoc`. -/
def sampleItemsStore : ItemsCollection := ⟨[sampleItemDoc]⟩

/-- A sample stored clock-in record. -/
def sampleClockDoc : ClockInDoc :=
  { oid := oid0, email := "a@b.com", location := "New York Office",
    insert_datetime := 100 }

/-- A clock-in collection holding exactly `sampleClockDoc`. -/
def sampleClockStore : ClockInCollection := ⟨[sampleClockDoc]⟩

/-- The spec's aggregate example: `a@b.com` twice, `c@d.com` once. -/
def exampleAggStore : ItemsCollection :=
  ⟨[ { oid := oid0, name := "i1", email := "a@b.com", item_name := "w",
       quantity := 1, expiry_date := 1, insert_date := 1 },
     { oid := oid1, name := "i2", email := "a@b.com", item_name := "w",
       quantity := 1, expiry_date := 1, insert_date := 1 },
     { oid := oid2, name := "i3", email := "c@d.com", item_name := "w",
       quantity := 1, expiry_date := 1, insert_date := 1 } ]⟩

/-- A filter request with no query parameters supplied. -/
def noItemFilter : ItemFilterParams := ⟨none, none, none, none⟩

/-- A clock-in filter request with no query parameters supplied. -/
def noClockFilter : ClockFilterParams := ⟨none, none, none⟩

/-- An item update payload with no field supplied. -/
def emptyItemUpdate : ItemUpdate := ⟨none, none, none, none, none⟩

/-- A clock-in update payload with no field supplied. -/
def emptyClockUpdate : ClockInUpdate := ⟨none, none⟩

/-- A create payload with negative quantity (rejected by validation). -/
def rawItemBad : RawItemCreate :=
  { name := "Sample", email := "a@b.com", item_name := "Widget",
    quantity := -5, expiry_date := 20241231 }

/-- A valid create payload. -/
def rawItemGood : RawItemCreate :=
  { name := "Sample", email := "a@b.com", item_name := "Widget",
    quantity := 10, expiry_date := 20241231 }

/-- An update payload supplying a negative quantity (rejected). -/
def rawItemUpdateBad : RawItemUpdate :=
  { name := none, email := none, item_name := none, quantity := some (-3),
    expiry_date := none, insert_date := none }

/-- An update body that supplies only a client-chosen `insert_date`. -/
def rawItemUpdateStamp : RawItemUpdate :=
  { name := none, email := none, item_name := none, quantity := none,
    expiry_date := none, insert_date := some 9999 }

/-- A clock-in update body that supplies a new location and a client-chosen
`insert_datetime`. -/
def rawClockUpdateStamp : RawClockInUpdate :=
  { email := none, location := some "San Francisco Office",
    insert_datetime := some 9999 }

/-! ### Claim-level predicates -/

/-- Conclusion of claim C3 for items: create returns an entity agreeing with
the payload plus the stamped `insert_date`, one document was inserted, and
Get-by-id on the returned identifier resolves to the same entity. -/
def ItemCreateOk (p : ItemCreate) (now : Int) (oid : ObjectId)
    (s : ItemsCollection) : Prop :=
  ∃ e : Item,
    (create_item p now oid s).resp = .ok e ∧
    (create_item p now oid s).store.docs.length = s.docs.length + 1 ∧
    e.name = p.name ∧ e.email = p.email ∧ e.item_name = p.item_name ∧
    e.quantity = p.quantity ∧ e.expiry_date = p.expiry_date ∧
    e.insert_date = now ∧
    (get_item e.id (create_item p now oid s).store).resp = .ok e

/-- Conclusion of claim C3 for clock-in records. -/
def ClockCreateOk (p : ClockInCreate) (now : Int) (oid : ObjectId)
    (s : ClockInCollection) : Prop :=
  ∃ e : ClockInRecord,
    (create_clockin p now oid s).resp = .ok e ∧
    (create_clockin p now oid s).store.docs.length = s.docs.length + 1 ∧
    e.email = p.email ∧ e.location = p.location ∧
    e.insert_datetime = now ∧
    (get_clockin e.id (create_clockin p now oid s).store).resp = .ok e

/-- Conclusion of claim C4 for items: an empty change-set update leaves the
collection unchanged, returns the record when it exists, and 404s exactly
when it does not. -/
def ItemEmptyUpdateOk (id : String) (u : ItemUpdate) (s : ItemsCollection) : Prop :=
  (update_item id u s).store = s ∧
  (∀ d, itemFindOne s (parseObjectId id) = some d →
    (update_item id u s).resp = .ok (itemOfDoc d)) ∧
  (itemFindOne s (parseObjectId id) = none →
    (update_item id u s).resp = .error .notFound)

/-- Conclusion of claim C4 for clock-in records. -/
def ClockEmptyUpdateOk (id : String) (u : ClockInUpdate)
    (s : ClockInCollection) : Prop :=
  (update_clockin id u s).store = s ∧
  (∀ d, clockFindOne s (parseObjectId id) = some d →
    (update_clockin id u s).resp = .ok (clockOfDoc d)) ∧
  (clockFindOne s (parseObjectId id) = none →
    (update_clockin id u s).resp = .error .notFound)

/-- Conclusion of claim C6 for items: 404 exactly when nothing was removed,
success otherwise, and a subsequent Get-by-id misses. -/
def ItemDeleteOk (id : String) (s : ItemsCollection) : Prop :=
  (itemFindOne s (parseObjectId id) = none →
    (delete_item id s).resp = .error .notFound ∧ (delete_item id s).store = s) ∧
  (∀ d, itemFindOne s (parseObjectId id) = some d →
    (delete_item id s).resp = .ok () ∧
    (get_item id (delete_item id s).store).resp = .error .notFound)

/-- Conclusion of claim C6 for clock-in records. -/
def ClockDeleteOk (id : String) (s : ClockInCollection) : Prop :=
  (clockFindOne s (parseObjectId id) = none →
    (delete_clockin id s).resp = .error .notFound ∧
    (delete_clockin id s).store = s) ∧
  (∀ d, clockFindOne s (parseObjectId id) = some d →
    (delete_clockin id s).resp = .ok () ∧
    (get_clockin id (delete_clockin id s).store).resp = .error .notFound)

/-- Frame relation of claim C7 for one item document: the update never
touches `_id` or `insert_date`, and leaves every field outside the
change-set unchanged. -/
def ItemFrame (u : ItemUpdate) (dNew dOld : ItemDoc) : Prop :=
  dNew.oid = dOld.oid ∧ dNew.insert_date = dOld.insert_date ∧
  (u.name = none → dNew.name = dOld.name) ∧
  (u.email = none → dNew.email = dOld.email) ∧
  (u.item_name = none → dNew.item_name = dOld.item_name) ∧
  (u.quantity = none → dNew.quantity = dOld.quantity) ∧
  (u.expiry_date = none → dNew.expiry_date = dOld.expiry_date)

/-- Claim C7 conclusion for items, for a raw update body (which may carry a
client-supplied `insert_date`): documentwise frame preservation. -/
def ItemUpdateFrameOk (raw : RawItemUpdate) (id : String)
    (s : ItemsCollection) : Prop :=
  List.Forall₂ (ItemFrame (parseItemUpdate raw))
    (update_item id (parseItemUpdate raw) s).store.docs s.docs

/-- Frame relation of claim C7 for one clock-in document. -/
def ClockFrame (u : ClockInUpdate) (dNew dOld : ClockInDoc) : Prop :=
  dNew.oid = dOld.oid ∧ dNew.insert_datetime = dOld.insert_datetime ∧
  (u.email = none → dNew.email = dOld.email) ∧
  (u.location = none → dNew.location = dOld.location)

/-- Claim C7 conclusion for clock-in records. -/
def ClockUpdateFrameOk (raw : RawClockInUpdate) (id : String)
    (s : ClockInCollection) : Prop :=
  List.Forall₂ (ClockFrame (parseClockInUpdate raw))
    (update_clockin id (parseClockInUpdate raw) s).store.docs s.docs

/-- Claim C8 invariant: every stored item has non-negative quantity. -/
def ItemQuantityInv (s : ItemsCollection) : Prop :=
  ∀ d ∈ s.docs, 0 ≤ d.quantity

/-- Claim C9 conclusion for one stored item: the returned entity's id is the
string form of the stored ObjectId, it is valid, the codec parses it back to
the same ObjectId, and Get-by-id on it returns the same entity. -/
def ItemIdRoundTrip (s : ItemsCollection) (d : ItemDoc) : Prop :=
  (itemOfDoc d).id = objectIdToString d.oid ∧
  isValidObjectId (itemOfDoc d).id = true ∧
  parseObjectId (itemOfDoc d).id = d.oid ∧
  (get_item (itemOfDoc d).id s).resp = .ok (itemOfDoc d)

/-- Claim C9 conclusion for one stored clock-in record. -/
def ClockIdRoundTrip (s : ClockInCollection) (d : ClockInDoc) : Prop :=
  (clockOfDoc d).id = objectIdToString d.oid ∧
  isValidObjectId (clockOfDoc d).id = true ∧
  parseObjectId (clockOfDoc d).id = d.oid ∧
  (get_clockin (clockOfDoc d).id s).resp = .ok (clockOfDoc d)

/-- Claim C10 conclusion for items: a no-effect non-empty update succeeds
with the existing record and leaves the collection unchanged. -/
def ItemNoopUpdateOk (id : String) (u : ItemUpdate) (s : ItemsCollection)
    (d : ItemDoc) : Prop :=
  (update_item id u s).resp = .ok (itemOfDoc d) ∧ (update_item id u s).store = s

/-- Claim C10 conclusion for clock-in records. -/
def ClockNoopUpdateOk (id : String) (u : ClockInUpdate)
    (s : ClockInCollection) (d : ClockInDoc) : Prop :=
  (update_clockin id u s).resp = .ok (clockOfDoc d) ∧
  (update_clockin id u s).store = s


/-! ### Library lemmas about the embedding -/

theorem encodeHexAux_length (k : Nat) : ∀ n, (encodeHexAux k n).length = k := by
  induction k with
  | zero => intro n; rfl
  | succ k ih => intro n; simp [encodeHexAux, ih]

theorem hexVal_digitChar (m : Fin 16) : hexVal (Nat.digitChar m.val) = m.val := by
  revert m; decide

theorem isHexDigit_digitChar (m : Fin 16) :
    isHexDigit (Nat.digitChar m.val) = true := by
  revert m; decide

theorem encodeHexAux_all_hex (k : Nat) :
    ∀ n, (encodeHexAux k n).all isHexDigit = true := by
  induction k with
  | zero => intro n; rfl
  | succ k ih =>
    intro n
    have h := isHexDigit_digitChar ⟨n % 16, Nat.mod_lt _ (by norm_num)⟩
    simp only [encodeHexAux, List.all_append, ih, Bool.true_and, List.all_cons,
      List.all_nil, Bool.and_true]
    exact h

theorem decodeHexList_encodeHexAux (k : Nat) :
    ∀ n, n < 16 ^ k → decodeHexList (encodeHexAux k n) = n := by
  induction k with
  | zero =>
    intro n hn
    have : n = 0 := Nat.lt_one_iff.mp (by simpa using hn)
    subst this; rfl
  | succ k ih =>
    intro n hn
    have hdiv : n / 16 < 16 ^ k := by
      rw [Nat.div_lt_iff_lt_mul (by norm_num : (0:Nat) < 16)]
      calc n < 16 ^ (k + 1) := hn
        _ = 16 ^ k * 16 := by ring
    have hmod := hexVal_digitChar ⟨n % 16, Nat.mod_lt _ (by norm_num)⟩
    calc decodeHexList (encodeHexAux (k + 1) n)
        = 16 * decodeHexList (encodeHexAux k (n / 16)) + hexVal (Nat.digitChar (n % 16)) := by
          simp [encodeHexAux, decodeHexList, List.foldl_append]
      _ = 16 * (n / 16) + n % 16 := by rw [ih _ hdiv, hmod]
      _ = n := Nat.div_add_mod n 16

theorem parseObjectId_objectIdToString (o : ObjectId) :
    parseObjectId (objectIdToString o) = o := by
  apply Fin.ext
  show decodeHexList (encodeHexAux 24 o.val) % 16 ^ 24 = o.val
  rw [decodeHexList_encodeHexAux 24 o.val o.isLt, Nat.mod_eq_of_lt o.isLt]

theorem isValidObjectId_objectIdToString (o : ObjectId) :
    isValidObjectId (objectIdToString o) = true := by
  show ((encodeHexAux 24 o.val).length == 24 && (encodeHexAux 24 o.val).all isHexDigit) = true
  rw [encodeHexAux_length, encodeHexAux_all_hex]
  rfl

theorem find?_append_singleton {α : Type} {β : Type} [DecidableEq β]
    (g : α → β) (k : β) (l : List α) (b : α)
    (h : ∀ a ∈ l, g a ≠ k) (hb : g b = k) :
    (l ++ [b]).find? (fun a => decide (g a = k)) = some b := by
  induction l with
  | nil => simp [List.find?, hb]
  | cons a t ih =>
    have ha : g a ≠ k := h a (by simp)
    rw [List.cons_append, List.find?_cons_of_neg _ (by simpa using ha)]
    exact ih fun x hx => h x (by simp [hx])

theorem mem_removeFirst {α : Type} (p : α → Bool) (l : List α) (b : α)
    (h : b ∈ removeFirst p l) : b ∈ l := by
  induction l with
  | nil => simp [removeFirst] at h
  | cons a t ih =>
    by_cases hp : p a
    · simp only [removeFirst, if_pos hp] at h
      exact List.mem_cons_of_mem a h
    · simp only [removeFirst, if_neg hp, List.mem_cons] at h
      rcases h with h | h
      · exact h ▸ List.mem_cons_self a t
      · exact List.mem_cons_of_mem a (ih h)

theorem find?_removeFirst_eq_none {α : Type} {β : Type} [DecidableEq β]
    (g : α → β) (k : β) (l : List α) (h : (l.map g).Nodup) :
    (removeFirst (fun a => decide (g a = k)) l).find? (fun a => decide (g a = k)) = none := by
  induction l with
  | nil => rfl
  | cons a t ih =>
    rw [List.map_cons, List.nodup_cons] at h
    by_cases hk : g a = k
    · rw [removeFirst, if_pos (by simpa using hk)]
      rw [List.find?_eq_none]
      intro x hx
      simp only [decide_eq_true_eq]
      intro hgx
      exact h.1 (hk ▸ hgx ▸ List.mem_map_of_mem g hx)
    · rw [removeFirst, if_neg (by simpa using hk)]
      rw [List.find?_cons_of_neg _ (by simpa using hk)]
      exact ih h.2

theorem find?_of_mem_nodup {α : Type} {β : Type} [DecidableEq β]
    (g : α → β) (l : List α) (a : α) (h1 : a ∈ l) (h2 : (l.map g).Nodup) :
    l.find? (fun x => decide (g x = g a)) = some a := by
  induction l with
  | nil => simp at h1
  | cons b t ih =>
    rw [List.map_cons, List.nodup_cons] at h2
    rcases List.mem_cons.mp h1 with h | h
    · subst h
      exact List.find?_cons_of_pos _ (by simp)
    · have hb : g b ≠ g a := by
        intro he
        exact h2.1 (he ▸ List.mem_map_of_mem g h)
      rw [List.find?_cons_of_neg _ (by simpa using hb)]
      exact ih h h2.2

theorem updateFirst_length {α : Type} (p : α → Bool) (f : α → α) (l : List α) :
    (updateFirst p f l).length = l.length := by
  induction l with
  | nil => rfl
  | cons a t ih =>
    by_cases hp : p a
    · simp [updateFirst, if_pos hp]
    · simp [updateFirst, if_neg hp, ih]

theorem updateFirst_eq_self {α : Type} (p : α → Bool) (f : α → α) (l : List α)
    (a : α) (hfind : l.find? p = some a) (hfix : f a = a) :
    updateFirst p f l = l := by
  induction l with
  | nil => simp at hfind
  | cons b t ih =>
    by_cases hp : p b
    · rw [List.find?_cons_of_pos _ hp] at hfind
      have : b = a := by simpa using hfind
      subst this
      rw [updateFirst, if_pos hp, hfix]
    · rw [List.find?_cons_of_neg _ hp] at hfind
      rw [updateFirst, if_neg hp, ih hfind]

theorem mem_updateFirst {α : Type} (p : α → Bool) (f : α → α) (l : List α)
    (b : α) (h : b ∈ updateFirst p f l) : b ∈ l ∨ ∃ a ∈ l, b = f a := by
  induction l with
  | nil => simp [updateFirst] at h
  | cons a t ih =>
    by_cases hp : p a
    · rw [updateFirst, if_pos hp, List.mem_cons] at h
      rcases h with h | h
      · exact Or.inr ⟨a, List.mem_cons_self a t, h⟩
      · exact Or.inl (List.mem_cons_of_mem a h)
    · rw [updateFirst, if_neg hp, List.mem_cons] at h
      rcases h with h | h
      · exact Or.inl (h ▸ List.mem_cons_self a t)
      · rcases ih h with h2 | ⟨x, hx, hbx⟩
        · exact Or.inl (List.mem_cons_of_mem a h2)
        · exact Or.inr ⟨x, List.mem_cons_of_mem a hx, hbx⟩

theorem forall₂_updateFirst {α : Type} (R : α → α → Prop) (p : α → Bool)
    (f : α → α) (l : List α) (hf : ∀ a, R (f a) a) (hr : ∀ a, R a a) :
    List.Forall₂ R (updateFirst p f l) l := by
  induction l with
  | nil => exact List.Forall₂.nil
  | cons a t ih =>
    by_cases hp : p a
    · rw [updateFirst, if_pos hp]
      exact List.Forall₂.cons (hf a) (List.forall₂_same.mpr fun x _ => hr x)
    · rw [updateFirst, if_neg hp]
      exact List.Forall₂.cons (hr a) ih

/-! ### Claims C1 and C2: the `/items/aggregate` and `/items/filter` paths -/

/-- C1 (counterexample): on the spec's own aggregate example (two items with
email `a@b.com`, one with `c@d.com`), `READ /items/aggregate` does not
succeed with email counts: `main.py` registers no aggregate route, the path
is captured by the earlier `GET /items/{id}` route with `id = "aggregate"`,
and the request fails with `InvalidFormat` (HTTP 400). -/
theorem C1_aggregate_counterexample :
    matchRoute .get ["items", "aggregate"] = some RouteId.getItemR ∧
    dispatchItemsGet "aggregate" noItemFilter exampleAggStore =
      .err .invalidFormat := by
  exact ⟨by decide, by decide⟩

/-- C1 (amended): the service exposes no Aggregate operation.  For every
state of the items collection and any query parameters, `READ
/items/aggregate` is routed to the Get-by-id handler with `id =
"aggregate"`, which is not a valid identifier, so the request always fails
with `InvalidFormat` and never returns (email, count) pairs. -/
theorem C1_aggregate_always_invalid_format (qp : ItemFilterParams)
    (s : ItemsCollection) :
    dispatchItemsGet "aggregate" qp s = .err .invalidFormat := rfl

/-- C2 (code bug evaluation): `GET /items/filter` and `GET /clock-in/filter`
are registered after the `{id}` routes, so routing sends them to the
Get-by-id handlers, which reject `"filter"` as an invalid identifier with
HTTP 400 — on a one-record collection the claimed "return every record"
behavior does not occur.  The filter handler functions themselves do
implement the claimed semantics: with no parameters they return every
record of the collection. -/
theorem C2_filter_route_shadowed :
    matchRoute .get ["items", "filter"] = some RouteId.getItemR ∧
    matchRoute .get ["clock-in", "filter"] = some RouteId.getClockinR ∧
    dispatchItemsGet "filter" noItemFilter sampleItemsStore =
      .err .invalidFormat ∧
    dispatchClockGet "filter" noClockFilter sampleClockStore =
      .err .invalidFormat ∧
    filter_items noItemFilter sampleItemsStore = [itemOfDoc sampleItemDoc] ∧
    filter_clockins noClockFilter sampleClockStore =
      [clockOfDoc sampleClockDoc] := by
  exact ⟨by decide, by decide, by decide, by decide, rfl, rfl⟩

/-- C5: for every string that is not a valid store identifier, every
identifier-taking handler of both entities (Get-by-id, Update, Delete)
fails with `InvalidFormat`, leaves the collection unchanged, and issues no
datastore call. -/
theorem C5_invalid_id_rejected_before_datastore (id : String)
    (h : isValidObjectId id = false) :
    (∀ (s : ItemsCollection) (u : ItemUpdate),
      get_item id s = ⟨.error .invalidFormat, s, []⟩ ∧
      delete_item id s = ⟨.error .invalidFormat, s, []⟩ ∧
      update_item id u s = ⟨.error .invalidFormat, s, []⟩) ∧
    (∀ (s : ClockInCollection) (u : ClockInUpdate),
      get_clockin id s = ⟨.error .invalidFormat, s, []⟩ ∧
      delete_clockin id s = ⟨.error .invalidFormat, s, []⟩ ∧
      update_clockin id u s = ⟨.error .invalidFormat, s, []⟩) := by
  constructor
  · intro s u
    refine ⟨?_, ?_, ?_⟩ <;> simp [get_item, delete_item, update_item, h]
  · intro s u
    refine ⟨?_, ?_, ?_⟩ <;> simp [get_clockin, delete_clockin, update_clockin, h]

/-- Witness for C5 at the concrete invalid identifier `"xyz"`. -/
theorem C5_witness :
    isValidObjectId "xyz" = false ∧
    get_item "xyz" sampleItemsStore =
      ⟨.error .invalidFormat, sampleItemsStore, []⟩ ∧
    delete_item "xyz" sampleItemsStore =
      ⟨.error .invalidFormat, sampleItemsStore, []⟩ ∧
    update_item "xyz" emptyItemUpdate sampleItemsStore =
      ⟨.error .invalidFormat, sampleItemsStore, []⟩ ∧
    get_clockin "xyz" sampleClockStore =
      ⟨.error .invalidFormat, sampleClockStore, []⟩ ∧
    delete_clockin "xyz" sampleClockStore =
      ⟨.error .invalidFormat, sampleClockStore, []⟩ ∧
    update_clockin "xyz" emptyClockUpdate sampleClockStore =
      ⟨.error .invalidFormat, sampleClockStore, []⟩ :=
  ⟨by decide,
   ((C5_invalid_id_rejected_before_datastore "xyz" (by decide)).1
      sampleItemsStore emptyItemUpdate).1,
   ((C5_invalid_id_rejected_before_datastore "xyz" (by decide)).1
      sampleItemsStore emptyItemUpdate).2.1,
   ((C5_invalid_id_rejected_before_datastore "xyz" (by decide)).1
      sampleItemsStore emptyItemUpdate).2.2,
   ((C5_invalid_id_rejected_before_datastore "xyz" (by decide)).2
      sampleClockStore emptyClockUpdate).1,
   ((C5_invalid_id_rejected_before_datastore "xyz" (by decide)).2
      sampleClockStore emptyClockUpdate).2.1,
   ((C5_invalid_id_rejected_before_datastore "xyz" (by decide)).2
      sampleClockStore emptyClockUpdate).2.2⟩

/-- C4: for every existing record (item or clock-in) and every update whose
effective change-set is empty, the update handler succeeds and returns the
record unchanged without touching the collection; it fails with `NotFound`
exactly when the identifier does not resolve to an existing document. -/
theorem C4_empty_update_noop :
    (∀ (id : String) (u : ItemUpdate) (s : ItemsCollection),
      isValidObjectId id = true → u.isEmpty = true → ItemEmptyUpdateOk id u s) ∧
    (∀ (id : String) (u : ClockInUpdate) (s : ClockInCollection),
      isValidObjectId id = true → u.isEmpty = true →
        ClockEmptyUpdateOk id u s) := by
  constructor
  · intro id u s hv he
    have hred : update_item id u s = itemExistingRead s (parseObjectId id) [] := by
      simp [update_item, hv, he]
    unfold ItemEmptyUpdateOk
    rw [hred]
    cases hfind : itemFindOne s (parseObjectId id) with
    | none => simp [itemExistingRead, hfind]
    | some d => simp [itemExistingRead, hfind]
  · intro id u s hv he
    have hred : update_clockin id u s = clockExistingRead s (parseObjectId id) [] := by
      simp [update_clockin, hv, he]
    unfold ClockEmptyUpdateOk
    rw [hred]
    cases hfind : clockFindOne s (parseObjectId id) with
    | none => simp [clockExistingRead, hfind]
    | some d => simp [clockExistingRead, hfind]

/-- Witness for C4: the all-`None` update on the sample one-record
collections, addressed by the valid identifier `id0`. -/
theorem C4_witness :
    isValidObjectId id0 = true ∧
    ItemUpdate.isEmpty emptyItemUpdate = true ∧
    ClockInUpdate.isEmpty emptyClockUpdate = true ∧
    ItemEmptyUpdateOk id0 emptyItemUpdate sampleItemsStore ∧
    ClockEmptyUpdateOk id0 emptyClockUpdate sampleClockStore :=
  ⟨by decide, by decide, by decide,
   C4_empty_update_noop.1 id0 emptyItemUpdate sampleItemsStore
     (by decide) (by decide),
   C4_empty_update_noop.2 id0 emptyClockUpdate sampleClockStore
     (by decide) (by decide)⟩

theorem mkItemDoc_oid (p : ItemCreate) (now : Int) (oid : ObjectId) :
    (mkItemDoc p now oid).oid = oid := rfl

theorem itemOfDoc_id (d : ItemDoc) :
    (itemOfDoc d).id = objectIdToString d.oid := rfl

theorem mkClockDoc_oid (p : ClockInCreate) (now : Int) (oid : ObjectId) :
    (mkClockDoc p now oid).oid = oid := rfl

theorem clockOfDoc_id (d : ClockInDoc) :
    (clockOfDoc d).id = objectIdToString d.oid := rfl

/-- With a fresh identifier, the post-insert re-read of `create_item` finds
exactly the inserted document. -/
theorem create_item_eq (p : ItemCreate) (now : Int) (oid : ObjectId)
    (s : ItemsCollection) (h : ∀ x ∈ s.docs, x.oid ≠ oid) :
    create_item p now oid s =
      ⟨.ok (itemOfDoc (mkItemDoc p now oid)),
       ⟨s.docs ++ [mkItemDoc p now oid]⟩, [.insertOne, .findOne]⟩ := by
  have hfind : itemFindOne ⟨s.docs ++ [mkItemDoc p now oid]⟩ oid =
      some (mkItemDoc p now oid) :=
    find?_append_singleton ItemDoc.oid oid s.docs (mkItemDoc p now oid) h rfl
  simp only [create_item]
  rw [hfind]

/-- With a fresh identifier, the post-insert re-read of `create_clockin`
finds exactly the inserted document. -/
theorem create_clockin_eq (p : ClockInCreate) (now : Int) (oid : ObjectId)
    (s : ClockInCollection) (h : ∀ x ∈ s.docs, x.oid ≠ oid) :
    create_clockin p now oid s =
      ⟨.ok (clockOfDoc (mkClockDoc p now oid)),
       ⟨s.docs ++ [mkClockDoc p now oid]⟩, [.insertOne, .findOne]⟩ := by
  have hfind : clockFindOne ⟨s.docs ++ [mkClockDoc p now oid]⟩ oid =
      some (mkClockDoc p now oid) :=
    find?_append_singleton ClockInDoc.oid oid s.docs (mkClockDoc p now oid) h rfl
  simp only [create_clockin]
  rw [hfind]

/-- C3: for every valid create payload (item or clock-in) and a fresh
driver-assigned identifier, create stamps the server time, inserts exactly
one document, and the returned identifier resolves via Get-by-id to an
entity equal in every client-supplied field to the input plus the stamped
creation timestamp. -/
theorem C3_create_roundtrip :
    (∀ (p : ItemCreate) (now : Int) (oid : ObjectId) (s : ItemsCollection),
      (∀ d ∈ s.docs, d.oid ≠ oid) → ItemCreateOk p now oid s) ∧
    (∀ (p : ClockInCreate) (now : Int) (oid : ObjectId) (s : ClockInCollection),
      (∀ d ∈ s.docs, d.oid ≠ oid) → ClockCreateOk p now oid s) := by
  constructor
  · intro p now oid s h
    have hc := create_item_eq p now oid s h
    have hfind : itemFindOne ⟨s.docs ++ [mkItemDoc p now oid]⟩ oid =
        some (mkItemDoc p now oid) :=
      find?_append_singleton ItemDoc.oid oid s.docs (mkItemDoc p now oid) h rfl
    refine ⟨itemOfDoc (mkItemDoc p now oid), ?_, ?_, rfl, rfl, rfl, rfl, rfl,
      rfl, ?_⟩
    · rw [hc]
    · rw [hc]; simp
    · rw [hc]
      simp [get_item, itemOfDoc_id, mkItemDoc_oid, isValidObjectId_objectIdToString,
        parseObjectId_objectIdToString, hfind]
  · intro p now oid s h
    have hc := create_clockin_eq p now oid s h
    have hfind : clockFindOne ⟨s.docs ++ [mkClockDoc p now oid]⟩ oid =
        some (mkClockDoc p now oid) :=
      find?_append_singleton ClockInDoc.oid oid s.docs (mkClockDoc p now oid) h rfl
    refine ⟨clockOfDoc (mkClockDoc p now oid), ?_, ?_, rfl, rfl, rfl, ?_⟩
    · rw [hc]
    · rw [hc]; simp
    · rw [hc]
      simp [get_clockin, clockOfDoc_id, mkClockDoc_oid, isValidObjectId_objectIdToString,
        parseObjectId_objectIdToString, hfind]

/-- Witness for C3: creating the spec's sample item and a sample clock-in
record in empty collections with the fresh identifier `oid0`. -/
theorem C3_witness :
    (∀ d ∈ (⟨[]⟩ : ItemsCollection).docs, d.oid ≠ oid0) ∧
    (∀ d ∈ (⟨[]⟩ : ClockInCollection).docs, d.oid ≠ oid0) ∧
    ItemCreateOk ⟨"Sample", "a@b.com", "Widget", 10, 20241231⟩ 100 oid0 ⟨[]⟩ ∧
    ClockCreateOk ⟨"a@b.com", "New York Office"⟩ 100 oid0 ⟨[]⟩ :=
  ⟨by simp, by simp,
   C3_create_roundtrip.1 ⟨"Sample", "a@b.com", "Widget", 10, 20241231⟩ 100 oid0
     ⟨[]⟩ (by simp),
   C3_create_roundtrip.2 ⟨"a@b.com", "New York Office"⟩ 100 oid0 ⟨[]⟩ (by simp)⟩

/-- C6: for every syntactically valid identifier, Delete fails with
`NotFound` exactly when zero documents were removed and otherwise succeeds
with no body; after a successful Delete, Get-by-id on the same identifier
fails with `NotFound` (with distinct stored identifiers). -/
theorem C6_delete_then_get_notfound :
    (∀ (id : String) (s : ItemsCollection),
      isValidObjectId id = true → (s.docs.map ItemDoc.oid).Nodup →
        ItemDeleteOk id s) ∧
    (∀ (id : String) (s : ClockInCollection),
      isValidObjectId id = true → (s.docs.map ClockInDoc.oid).Nodup →
        ClockDeleteOk id s) := by
  constructor
  · intro id s hv hnd
    constructor
    · intro hfind
      have hd : deleteOneCount (fun d => decide (d.oid = parseObjectId id)) s.docs
          = (0, s.docs) := by
        unfold deleteOneCount
        rw [show s.docs.find? (fun d => decide (d.oid = parseObjectId id)) = none
          from hfind]
      constructor <;> simp [delete_item, hv, hd]
    · intro d hfind
      have hd : deleteOneCount (fun d => decide (d.oid = parseObjectId id)) s.docs
          = (1, removeFirst (fun d => decide (d.oid = parseObjectId id)) s.docs) := by
        unfold deleteOneCount
        rw [show s.docs.find? (fun d => decide (d.oid = parseObjectId id)) = some d
          from hfind]
      have hnone := find?_removeFirst_eq_none ItemDoc.oid (parseObjectId id)
        s.docs hnd
      constructor
      · simp [delete_item, hv, hd]
      · simp [delete_item, get_item, hv, hd, itemFindOne, hnone]
  · intro id s hv hnd
    constructor
    · intro hfind
      have hd : deleteOneCount (fun d => decide (d.oid = parseObjectId id)) s.docs
          = (0, s.docs) := by
        unfold deleteOneCount
        rw [show s.docs.find? (fun d => decide (d.oid = parseObjectId id)) = none
          from hfind]
      constructor <;> simp [delete_clockin, hv, hd]
    · intro d hfind
      have hd : deleteOneCount (fun d => decide (d.oid = parseObjectId id)) s.docs
          = (1, removeFirst (fun d => decide (d.oid = parseObjectId id)) s.docs) := by
        unfold deleteOneCount
        rw [show s.docs.find? (fun d => decide (d.oid = parseObjectId id)) = some d
          from hfind]
      have hnone := find?_removeFirst_eq_none ClockInDoc.oid (parseObjectId id)
        s.docs hnd
      constructor
      · simp [delete_clockin, hv, hd]
      · simp [delete_clockin, get_clockin, hv, hd, clockFindOne, hnone]

/-- Witness for C6 on the sample one-record collections and identifier `id0`. -/
theorem C6_witness :
    isValidObjectId id0 = true ∧
    (sampleItemsStore.docs.map ItemDoc.oid).Nodup ∧
    (sampleClockStore.docs.map ClockInDoc.oid).Nodup ∧
    ItemDeleteOk id0 sampleItemsStore ∧
    ClockDeleteOk id0 sampleClockStore :=
  ⟨by decide, by decide, by decide,
   C6_delete_then_get_notfound.1 id0 sampleItemsStore (by decide) (by decide),
   C6_delete_then_get_notfound.2 id0 sampleClockStore (by decide) (by decide)⟩

/-- C9: every entity returned for a stored document carries as its id the
string form of the stored ObjectId; that string passes the validity check,
the codec parses it back to the original ObjectId, and Get-by-id on it
returns the same entity (with distinct stored identifiers). -/
theorem C9_identifier_roundtrip :
    (∀ (s : ItemsCollection) (d : ItemDoc),
      d ∈ s.docs → (s.docs.map ItemDoc.oid).Nodup → ItemIdRoundTrip s d) ∧
    (∀ (s : ClockInCollection) (d : ClockInDoc),
      d ∈ s.docs → (s.docs.map ClockInDoc.oid).Nodup → ClockIdRoundTrip s d) := by
  constructor
  · intro s d hmem hnd
    have hfind := find?_of_mem_nodup ItemDoc.oid s.docs d hmem hnd
    refine ⟨rfl, isValidObjectId_objectIdToString d.oid,
      parseObjectId_objectIdToString d.oid, ?_⟩
    simp [get_item, itemOfDoc_id, isValidObjectId_objectIdToString,
      parseObjectId_objectIdToString, itemFindOne, hfind]
  · intro s d hmem hnd
    have hfind := find?_of_mem_nodup ClockInDoc.oid s.docs d hmem hnd
    refine ⟨rfl, isValidObjectId_objectIdToString d.oid,
      parseObjectId_objectIdToString d.oid, ?_⟩
    simp [get_clockin, clockOfDoc_id, isValidObjectId_objectIdToString,
      parseObjectId_objectIdToString, clockFindOne, hfind]

/-- Witness for C9 on the sample one-record collections. -/
theorem C9_witness :
    sampleItemDoc ∈ sampleItemsStore.docs ∧
    (sampleItemsStore.docs.map ItemDoc.oid).Nodup ∧
    sampleClockDoc ∈ sampleClockStore.docs ∧
    (sampleClockStore.docs.map ClockInDoc.oid).Nodup ∧
    ItemIdRoundTrip sampleItemsStore sampleItemDoc ∧
    ClockIdRoundTrip sampleClockStore sampleClockDoc :=
  ⟨by decide, by decide, by decide, by decide,
   C9_identifier_roundtrip.1 sampleItemsStore sampleItemDoc (by decide) (by decide),
   C9_identifier_roundtrip.2 sampleClockStore sampleClockDoc (by decide) (by decide)⟩

/-- C10: a non-empty update whose supplied fields all equal the stored
values leaves the datastore reporting zero modifications, yet the handler
returns the existing record via the fallback re-read, and the collection is
unchanged. -/
theorem C10_noop_update_returns_record :
    (∀ (id : String) (u : ItemUpdate) (s : ItemsCollection) (d : ItemDoc),
      isValidObjectId id = true → u.isEmpty = false →
      itemFindOne s (parseObjectId id) = some d → applyItemSet u d = d →
      ItemNoopUpdateOk id u s d) ∧
    (∀ (id : String) (u : ClockInUpdate) (s : ClockInCollection) (d : ClockInDoc),
      isValidObjectId id = true → u.isEmpty = false →
      clockFindOne s (parseObjectId id) = some d → applyClockInSet u d = d →
      ClockNoopUpdateOk id u s d) := by
  constructor
  · intro id u s d hv hne hfind hfix
    have hfind2 : s.docs.find? (fun x => decide (x.oid = parseObjectId id)) = some d :=
      hfind
    have hupd : itemUpdateOne (parseObjectId id) u s.docs = (0, s.docs) := by
      unfold itemUpdateOne
      simp only [hfind2, if_pos hfix, updateFirst_eq_self _ _ _ d hfind2 hfix]
    constructor <;>
      simp [update_item, hv, hne, hupd, itemExistingRead, itemFindOne, hfind2]
  · intro id u s d hv hne hfind hfix
    have hfind2 : s.docs.find? (fun x => decide (x.oid = parseObjectId id)) = some d :=
      hfind
    have hupd : clockUpdateOne (parseObjectId id) u s.docs = (0, s.docs) := by
      unfold clockUpdateOne
      simp only [hfind2, if_pos hfix, updateFirst_eq_self _ _ _ d hfind2 hfix]
    constructor <;>
      simp [update_clockin, hv, hne, hupd, clockExistingRead, clockFindOne, hfind2]

/-- Witness for C10: updating the sample item with its already-stored
quantity, and the sample clock-in record with its already-stored location. -/
theorem C10_witness :
    isValidObjectId id0 = true ∧
    ItemUpdate.isEmpty ⟨none, none, none, some 10, none⟩ = false ∧
    itemFindOne sampleItemsStore (parseObjectId id0) = some sampleItemDoc ∧
    applyItemSet ⟨none, none, none, some 10, none⟩ sampleItemDoc = sampleItemDoc ∧
    ClockInUpdate.isEmpty ⟨none, some "New York Office"⟩ = false ∧
    clockFindOne sampleClockStore (parseObjectId id0) = some sampleClockDoc ∧
    applyClockInSet ⟨none, some "New York Office"⟩ sampleClockDoc = sampleClockDoc ∧
    ItemNoopUpdateOk id0 ⟨none, none, none, some 10, none⟩ sampleItemsStore
      sampleItemDoc ∧
    ClockNoopUpdateOk id0 ⟨none, some "New York Office"⟩ sampleClockStore
      sampleClockDoc :=
  ⟨by decide, by decide, by decide, by decide, by decide, by decide, by decide,
   C10_noop_update_returns_record.1 id0 ⟨none, none, none, some 10, none⟩
     sampleItemsStore sampleItemDoc (by decide) (by decide) (by decide) (by decide),
   C10_noop_update_returns_record.2 id0 ⟨none, some "New York Office"⟩
     sampleClockStore sampleClockDoc (by decide) (by decide) (by decide) (by decide)⟩

theorem itemFrame_refl (u : ItemUpdate) (d : ItemDoc) : ItemFrame u d d :=
  ⟨rfl, rfl, fun _ => rfl, fun _ => rfl, fun _ => rfl, fun _ => rfl, fun _ => rfl⟩

theorem itemFrame_applySet (u : ItemUpdate) (d : ItemDoc) :
    ItemFrame u (applyItemSet u d) d := by
  refine ⟨rfl, rfl, ?_, ?_, ?_, ?_, ?_⟩ <;> intro h <;> simp [applyItemSet, h]

theorem clockFrame_refl (u : ClockInUpdate) (d : ClockInDoc) : ClockFrame u d d :=
  ⟨rfl, rfl, fun _ => rfl, fun _ => rfl⟩

theorem clockFrame_applySet (u : ClockInUpdate) (d : ClockInDoc) :
    ClockFrame u (applyClockInSet u d) d := by
  refine ⟨rfl, rfl, ?_, ?_⟩ <;> intro h <;> simp [applyClockInSet, h]

theorem forall₂_itemFrame_updateOne (u : ItemUpdate) (oid : ObjectId)
    (l : List ItemDoc) :
    List.Forall₂ (ItemFrame u) (itemUpdateOne oid u l).2 l := by
  unfold itemUpdateOne
  cases hfind : l.find? (fun d => decide (d.oid = oid)) with
  | none => exact List.forall₂_same.mpr fun x _ => itemFrame_refl u x
  | some d =>
    exact forall₂_updateFirst _ _ _ l (itemFrame_applySet u) (itemFrame_refl u)

theorem forall₂_clockFrame_updateOne (u : ClockInUpdate) (oid : ObjectId)
    (l : List ClockInDoc) :
    List.Forall₂ (ClockFrame u) (clockUpdateOne oid u l).2 l := by
  unfold clockUpdateOne
  cases hfind : l.find? (fun d => decide (d.oid = oid)) with
  | none => exact List.forall₂_same.mpr fun x _ => clockFrame_refl u x
  | some d =>
    exact forall₂_updateFirst _ _ _ l (clockFrame_applySet u) (clockFrame_refl u)

theorem itemExistingRead_store (s : ItemsCollection) (oid : ObjectId)
    (pre : List DbCall) : (itemExistingRead s oid pre).store = s := by
  unfold itemExistingRead
  cases h : itemFindOne s oid <;> rfl

theorem clockExistingRead_store (s : ClockInCollection) (oid : ObjectId)
    (pre : List DbCall) : (clockExistingRead s oid pre).store = s := by
  unfold clockExistingRead
  cases h : clockFindOne s oid <;> rfl

/-- The collection after `update_item` is either untouched or exactly the
result of the single `update_one` call. -/
theorem update_item_store (id : String) (u : ItemUpdate) (s : ItemsCollection) :
    (update_item id u s).store = s ∨
    (update_item id u s).store = ⟨(itemUpdateOne (parseObjectId id) u s.docs).2⟩ := by
  simp only [update_item]
  by_cases hv : isValidObjectId id = false
  · rw [if_pos hv]; exact Or.inl rfl
  · rw [if_neg hv]
    by_cases he : u.isEmpty = false
    · rw [if_pos he]
      right
      by_cases hc : (itemUpdateOne (parseObjectId id) u s.docs).1 = 1
      · rw [if_pos hc]
        cases hf : itemFindOne ⟨(itemUpdateOne (parseObjectId id) u s.docs).2⟩
            (parseObjectId id) with
        | some d => rfl
        | none => exact itemExistingRead_store _ _ _
      · rw [if_neg hc]
        exact itemExistingRead_store _ _ _
    · rw [if_neg he]
      left
      exact itemExistingRead_store _ _ _

/-- The collection after `update_clockin` is either untouched or exactly
the result of the single `update_one` call. -/
theorem update_clockin_store (id : String) (u : ClockInUpdate)
    (s : ClockInCollection) :
    (update_clockin id u s).store = s ∨
    (update_clockin id u s).store = ⟨(clockUpdateOne (parseObjectId id) u s.docs).2⟩ := by
  simp only [update_clockin]
  by_cases hv : isValidObjectId id = false
  · rw [if_pos hv]; exact Or.inl rfl
  · rw [if_neg hv]
    by_cases he : u.isEmpty = false
    · rw [if_pos he]
      right
      by_cases hc : (clockUpdateOne (parseObjectId id) u s.docs).1 = 1
      · rw [if_pos hc]
        cases hf : clockFindOne ⟨(clockUpdateOne (parseObjectId id) u s.docs).2⟩
            (parseObjectId id) with
        | some d => rfl
        | none => exact clockExistingRead_store _ _ _
      · rw [if_neg hc]
        exact clockExistingRead_store _ _ _
    · rw [if_neg he]
      left
      exact clockExistingRead_store _ _ _

/-- C7: for every raw update body (including one that explicitly supplies a
creation timestamp) and every collection state, the update handler never
changes any document's identifier or creation timestamp, and leaves every
field outside the effective change-set unchanged; the supplied creation
timestamp is silently discarded. -/
theorem C7_update_never_touches_id_or_stamp :
    (∀ (raw : RawItemUpdate) (id : String) (s : ItemsCollection),
      ItemUpdateFrameOk raw id s) ∧
    (∀ (raw : RawClockInUpdate) (id : String) (s : ClockInCollection),
      ClockUpdateFrameOk raw id s) := by
  constructor
  · intro raw id s
    unfold ItemUpdateFrameOk
    rcases update_item_store id (parseItemUpdate raw) s with h | h
    · rw [h]
      exact List.forall₂_same.mpr fun x _ => itemFrame_refl _ x
    · rw [h]
      exact forall₂_itemFrame_updateOne (parseItemUpdate raw) (parseObjectId id)
        s.docs
  · intro raw id s
    unfold ClockUpdateFrameOk
    rcases update_clockin_store id (parseClockInUpdate raw) s with h | h
    · rw [h]
      exact List.forall₂_same.mpr fun x _ => clockFrame_refl _ x
    · rw [h]
      exact forall₂_clockFrame_updateOne (parseClockInUpdate raw)
        (parseObjectId id) s.docs

/-- Witness for C7: raw bodies that explicitly supply a client-chosen
creation timestamp, run against the sample collections. -/
theorem C7_witness :
    ItemUpdateFrameOk rawItemUpdateStamp id0 sampleItemsStore ∧
    ClockUpdateFrameOk rawClockUpdateStamp id0 sampleClockStore :=
  ⟨C7_update_never_touches_id_or_stamp.1 rawItemUpdateStamp id0 sampleItemsStore,
   C7_update_never_touches_id_or_stamp.2 rawClockUpdateStamp id0 sampleClockStore⟩

theorem validateItemCreate_quantity (raw : RawItemCreate) (p : ItemCreate)
    (h : validateItemCreate raw = some p) : 0 ≤ p.quantity := by
  unfold validateItemCreate at h
  by_cases hneg : raw.quantity < 0
  · rw [if_pos hneg] at h; cases h
  · rw [if_neg hneg] at h
    have he := Option.some.inj h
    rw [← he]
    exact not_lt.mp hneg

theorem validateItemUpdate_quantity (raw : RawItemUpdate) (u : ItemUpdate)
    (h : validateItemUpdate raw = some u) :
    u.quantity = none ∨ ∃ q, u.quantity = some q ∧ 0 ≤ q := by
  unfold validateItemUpdate at h
  cases hq : raw.quantity with
  | none =>
    simp only [hq] at h
    have he := Option.some.inj h
    left
    rw [← he]
    exact hq
  | some q =>
    simp only [hq] at h
    by_cases hneg : q < 0
    · rw [if_pos hneg] at h; cases h
    · rw [if_neg hneg] at h
      have he := Option.some.inj h
      right
      exact ⟨q, by rw [← he]; exact hq, not_lt.mp hneg⟩

theorem create_item_store (p : ItemCreate) (now : Int) (oid : ObjectId)
    (s : ItemsCollection) :
    (create_item p now oid s).store = ⟨s.docs ++ [mkItemDoc p now oid]⟩ := by
  simp only [create_item]
  cases h : itemFindOne ⟨s.docs ++ [mkItemDoc p now oid]⟩ oid <;> rfl

theorem deleteOneCount_mem {α : Type} (p : α → Bool) (l : List α) :
    ∀ b ∈ (deleteOneCount p l).2, b ∈ l := by
  intro b hb
  unfold deleteOneCount at hb
  cases h : l.find? p with
  | none => rw [h] at hb; exact hb
  | some a => rw [h] at hb; exact mem_removeFirst p l b hb

theorem delete_item_store_mem (id : String) (s : ItemsCollection) :
    ∀ d ∈ (delete_item id s).store.docs, d ∈ s.docs := by
  intro d hd
  simp only [delete_item] at hd
  by_cases hv : isValidObjectId id = false
  · rw [if_pos hv] at hd; exact hd
  · rw [if_neg hv] at hd
    by_cases hc : (deleteOneCount (fun x => decide (x.oid = parseObjectId id))
        s.docs).1 = 1
    · rw [if_pos hc] at hd
      exact deleteOneCount_mem _ s.docs d hd
    · rw [if_neg hc] at hd
      exact deleteOneCount_mem _ s.docs d hd

theorem itemUpdateOne_mem (oid : ObjectId) (u : ItemUpdate) (l : List ItemDoc) :
    ∀ b ∈ (itemUpdateOne oid u l).2, b ∈ l ∨ ∃ a ∈ l, b = applyItemSet u a := by
  intro b hb
  unfold itemUpdateOne at hb
  cases h : l.find? (fun d => decide (d.oid = oid)) with
  | none => rw [h] at hb; exact Or.inl hb
  | some d =>
    rw [h] at hb
    rcases mem_updateFirst _ _ l b hb with hm | ⟨a, ha, hba⟩
    · exact Or.inl hm
    · exact Or.inr ⟨a, ha, hba⟩

theorem itemExec_preserves_quantityInv (s : ItemsCollection) (op : ItemOp)
    (h : ItemQuantityInv s) : ItemQuantityInv (itemExec s op) := by
  cases op with
  | create raw now oid =>
    show ItemQuantityInv (match validateItemCreate raw with
      | some p => (create_item p now oid s).store
      | none => s)
    cases hval : validateItemCreate raw with
    | none => exact h
    | some p =>
      show ItemQuantityInv (create_item p now oid s).store
      have hq := validateItemCreate_quantity raw p hval
      intro d hd
      rw [create_item_store] at hd
      rcases List.mem_append.mp hd with hd | hd
      · exact h d hd
      · have he : d = mkItemDoc p now oid := by simpa using hd
        rw [he]
        exact hq
  | update id raw =>
    show ItemQuantityInv (match validateItemUpdate raw with
      | some u => (update_item id u s).store
      | none => s)
    cases hval : validateItemUpdate raw with
    | none => exact h
    | some u =>
      show ItemQuantityInv (update_item id u s).store
      have hu := validateItemUpdate_quantity raw u hval
      intro d hd
      rcases update_item_store id u s with hst | hst
      · rw [hst] at hd; exact h d hd
      · rw [hst] at hd
        rcases itemUpdateOne_mem _ _ _ d hd with hm | ⟨a, ha, hda⟩
        · exact h d hm
        · rw [hda]
          rcases hu with hq | ⟨q, hq, hq0⟩
          · have : (applyItemSet u a).quantity = a.quantity := by
              simp [applyItemSet, hq]
            rw [this]
            exact h a ha
          · have : (applyItemSet u a).quantity = q := by
              simp [applyItemSet, hq]
            rw [this]
            exact hq0
  | delete id =>
    show ItemQuantityInv (delete_item id s).store
    intro d hd
    exact h d (delete_item_store_mem id s d hd)

theorem foldl_itemExec_inv (ops : List ItemOp) :
    ∀ s, ItemQuantityInv s → ItemQuantityInv (ops.foldl itemExec s) := by
  induction ops with
  | nil => intro s h; exact h
  | cons op t ih =>
    intro s h
    exact ih _ (itemExec_preserves_quantityInv s op h)

/-- C8: create validation rejects any negative quantity before constructing
an object, update validation rejects any supplied negative quantity, and
consequently every reachable state of the items collection stores only
non-negative quantities. -/
theorem C8_quantity_never_negative :
    (∀ raw : RawItemCreate, raw.quantity < 0 → validateItemCreate raw = none) ∧
    (∀ (raw : RawItemUpdate) (q : Int), raw.quantity = some q → q < 0 →
      validateItemUpdate raw = none) ∧
    (∀ ops : List ItemOp, ItemQuantityInv (itemsReachable ops)) := by
  refine ⟨?_, ?_, ?_⟩
  · intro raw h
    simp [validateItemCreate, h]
  · intro raw q hq h
    simp [validateItemUpdate, hq, h]
  · intro ops
    exact foldl_itemExec_inv ops ⟨[]⟩ (by intro d hd; simp at hd)

/-- Witness for C8: a negative-quantity create and update are rejected, and
the item stored by a valid create in the empty collection has non-negative
quantity. -/
theorem C8_witness :
    rawItemBad.quantity < 0 ∧
    validateItemCreate rawItemBad = none ∧
    rawItemUpdateBad.quantity = some (-3) ∧
    validateItemUpdate rawItemUpdateBad = none ∧
    mkItemDoc ⟨"Sample", "a@b.com", "Widget", 10, 20241231⟩ 100 oid0 ∈
      (itemsReachable [ItemOp.create rawItemGood 100 oid0]).docs ∧
    0 ≤ (mkItemDoc ⟨"Sample", "a@b.com", "Widget", 10, 20241231⟩ 100 oid0).quantity :=
  ⟨by decide,
   C8_quantity_never_negative.1 rawItemBad (by decide),
   by decide,
   C8_quantity_never_negative.2.1 rawItemUpdateBad (-3) (by decide) (by decide),
   by decide,
   C8_quantity_never_negative.2.2 [ItemOp.create rawItemGood 100 oid0]
     (mkItemDoc ⟨"Sample", "a@b.com", "Widget", 10, 20241231⟩ 100 oid0)
     (by decide)⟩
